import Mathlib

/-!
Shallow embedding of the browser-side chat/zoom controller of the
CFG-LLMv2 repository (src/static/js/script.js). Pure Lean functions model
the DOM-mutating handlers as state transformers over an explicit `UIState`;
the zoom level is modelled as a rational number (the source manipulates it
only through addition/subtraction of 0.1 and `Math.min`/`Math.max`
clamping, so order and clamping behaviour are preserved exactly).
-/

namespace CFG

/-- How the content of a message was inserted into the DOM: `textContent`
(plain text, never parsed as markup) vs. `innerHTML` (markup). -/
inductive Rendered where
  | plainText (s : String)
  | markup (s : String)
deriving DecidableEq, Repr

/-- A chat transcript entry: the CSS type tag (`user` / `assistant`) and
the rendered content. -/
structure Message where
  type : String
  rendered : Rendered
deriving DecidableEq, Repr

/-- Graph metrics from a `/generate` response. -/
structure Metrics where
  nodes : Int
  edges : Int
  cyclomatic : Int
deriving DecidableEq, Repr

/-- The module-local mutable state plus the observable DOM state the
handlers in script.js read and write. -/
structure UIState where
  chatMessages : List Message
  graphContent : String
  currentZoom : ℚ
  zoomLevelText : String
  zoomInDisabled : Bool
  zoomOutDisabled : Bool
  imgScale : ℚ
  isRepairMode : Bool
  loading : Bool
  sendBtnDisabled : Bool
  sendBtnLabel : String
  inputValue : String
  placeholder : String
  repairBtnActive : Bool
  metricsText : String × String × String
  inputFocused : Bool
deriving DecidableEq, Repr

/-- Model of `const zoomStep = 0.1` (script.js line 51). -/
def zoomStep : ℚ := 0.1

/-- Model of `const minZoom = 0.5` (script.js line 52). -/
def minZoom : ℚ := 0.5

/-- Model of `const maxZoom = 3` (script.js line 53). -/
def maxZoom : ℚ := 3

/-- Whether the first character list is a prefix of the second. -/
def charsStartWith : List Char → List Char → Bool
  | [], _ => true
  | _ :: _, [] => false
  | p :: ps, c :: cs => p = c && charsStartWith ps cs

/-- Whether the first character list occurs contiguously in the second. -/
def charsContain (pat : List Char) : List Char → Bool
  | [] => charsStartWith pat []
  | c :: cs => charsStartWith pat (c :: cs) || charsContain pat cs

/-- JavaScript `String.prototype.trim`: strip leading and trailing
whitespace. -/
def jsTrim (s : String) : String :=
  ⟨((s.data.dropWhile Char.isWhitespace).reverse.dropWhile Char.isWhitespace).reverse⟩

/-- JavaScript `String.prototype.startsWith` for a fixed pattern. -/
def jsStartsWith (pat s : String) : Bool :=
  charsStartWith pat.data s.data

/-- Split a character list at every occurrence of the given character;
the separator is dropped, empty segments are kept. -/
def splitOnChar (sep : Char) : List Char → List (List Char)
  | [] => [[]]
  | c :: cs =>
    let r := splitOnChar sep cs
    if c = sep then [] :: r
    else
      match r with
      | [] => [[c]]
      | l :: ls => (c :: l) :: ls

/-- JavaScript `content.split('\n')`. -/
def jsSplitNewline (s : String) : List String :=
  (splitOnChar '\n' s.data).map (fun cs => ⟨cs⟩)

/-- Model of the substring test `content.includes` applied to `<img`, used by the intercepted
`innerHTML` setter (script.js line 88). -/
def containsImg (content : String) : Bool :=
  charsContain "<img".data content.data

/-- Whether the lookup `graphContent.querySelector` for an img element finds an image: in this
model, whether the markup of the graph container contains an `<img` tag. -/
def hasImage (s : UIState) : Bool :=
  containsImg s.graphContent

/-- One iteration of the `map` callback inside `formatMessage`
(script.js lines 23-31): trim the line, classify by leading `•` / `-`,
wrap in the corresponding div. -/
def formatLine (line : String) : String :=
  let l := jsTrim line
  if jsStartsWith "•" l then
    "<div class=\"bullet-point\">" ++ l ++ "</div>"
  else if jsStartsWith "-" l then
    "<div class=\"sub-bullet\">" ++ l ++ "</div>"
  else
    "<div>" ++ l ++ "</div>"

/-- Model of `formatMessage` (script.js lines 22-33): split on newlines, map each
line through the trim/classify callback, join with the empty string. -/
def formatMessage (content : String) : String :=
  String.join ((jsSplitNewline content).map formatLine)

/-- Model of `addMessage` (script.js lines 131-143): assistant messages are set via
`innerHTML = formatMessage content`, all other types via
`textContent = content`. -/
def addMessage (content : String) (type : String) (msgs : List Message) :
    List Message :=
  msgs ++ [⟨type, if type = "assistant" then
    Rendered.markup (formatMessage content)
  else
    Rendered.plainText content⟩]

/-- Model of `updateZoom` (script.js lines 59-69): only when an image is present,
apply the scale, refresh the percentage text, and recompute the two
disabled flags of the two buttons. -/
def updateZoom (s : UIState) : UIState :=
  if hasImage s then
    { s with
      imgScale := s.currentZoom
      zoomLevelText := toString (round (s.currentZoom * 100)) ++ "%"
      zoomInDisabled := decide (s.currentZoom ≥ maxZoom)
      zoomOutDisabled := decide (s.currentZoom ≤ minZoom) }
  else s

/-- The `zoomIn` click handler (script.js lines 71-76). -/
def clickZoomIn (s : UIState) : UIState :=
  if s.currentZoom < maxZoom then
    updateZoom { s with currentZoom := min (s.currentZoom + zoomStep) maxZoom }
  else s

/-- The `zoomOut` click handler (script.js lines 78-83). -/
def clickZoomOut (s : UIState) : UIState :=
  if s.currentZoom > minZoom then
    updateZoom { s with currentZoom := max (s.currentZoom - zoomStep) minZoom }
  else s

/-- The intercepted `innerHTML` setter on the graph container
(script.js lines 86-99): image-bearing markup resets the zoom to 1 and
re-renders; any other markup only replaces the content. -/
def setGraphInnerHTML (content : String) (s : UIState) : UIState :=
  if containsImg content then
    updateZoom { s with graphContent := content, currentZoom := 1 }
  else
    { s with graphContent := content }

/-- The document `keydown` handler (script.js lines 102-112): with
ctrl/cmd held, `=` or `+` clicks zoom-in and `-` clicks zoom-out. -/
def keydownEvent (ctrl : Bool) (key : String) (s : UIState) : UIState :=
  if ctrl then
    if key = "=" ∨ key = "+" then clickZoomIn s
    else if key = "-" then clickZoomOut s
    else s
  else s

/-- The `wheel` handler on the graph container (script.js lines 115-128):
with ctrl/cmd held, a negative delta steps the zoom in and a positive
delta steps it out, then `updateZoom` runs unconditionally. -/
def wheelEvent (ctrl : Bool) (delta : Int) (s : UIState) : UIState :=
  if ctrl then
    let s1 :=
      if delta < 0 ∧ s.currentZoom < maxZoom then
        { s with currentZoom := min (s.currentZoom + zoomStep) maxZoom }
      else if delta > 0 ∧ s.currentZoom > minZoom then
        { s with currentZoom := max (s.currentZoom - zoomStep) minZoom }
      else s
    updateZoom s1
  else s

/-- Model of `updateMetrics` (script.js lines 146-160): present metrics are shown
as numbers, absent metrics as the `-` placeholder in all three cells. -/
def updateMetrics (m : Option Metrics) (s : UIState) : UIState :=
  match m with
  | some mm =>
    { s with metricsText :=
        (toString mm.nodes, toString mm.edges, toString mm.cyclomatic) }
  | none => { s with metricsText := ("-", "-", "-") }

/-- Model of `initializeUI` (script.js lines 14-19): focus the input, clear the
active class of the repair button, reset the repair flag, blank the metrics. -/
def initializeUI (s : UIState) : UIState :=
  updateMetrics none
    { s with inputFocused := true, repairBtnActive := false, isRepairMode := false }

/-- The fixed welcome message text appended by `clearChat`
(script.js lines 241-254). -/
def welcomeMessage : String :=
  "• Welcome to the Control Flow Graph Generator!\n\n• Key Features:\n  - Create detailed flow diagrams\n  - Get instant graph metrics\n  - Optimize process layouts\n  - Analyze flow complexity\n\n• How to Use:\n  - Type your process description\n  - Click Generate to create graph\n  - Use Refine for improvements\n\n• Try describing a simple process to start!"

/-- The two fixed placeholder strings the repair toggle swaps between
(script.js lines 276-278). -/
def repairPlaceholder (mode : Bool) : String :=
  if mode then
    "Describe how you\x27d like to improve the current graph..."
  else
    "Describe the process or flow you want to visualize..."

/-- The `repairBtn` click handler (script.js lines 273-279): flip the
flag, toggle the active class, set the placeholder from the new flag. -/
def repairToggle (s : UIState) : UIState :=
  { s with
    isRepairMode := !s.isRepairMode
    repairBtnActive := !s.repairBtnActive
    placeholder := repairPlaceholder (!s.isRepairMode) }

/-- One entry of the `chat_history` array of a `/generate` response. -/
structure HistMsg where
  type : String
  content : String
deriving DecidableEq, Repr

/-- The JSON payload of a `/generate` response. Absent fields are `none`
(respectively the empty list for `chat_history`). -/
structure GenResponse where
  error : Option String
  chat_history : List HistMsg
  cfg_image : Option String
  metrics : Option Metrics
deriving DecidableEq, Repr

/-- JavaScript truthiness of an optional string field: absent and the
empty string are falsy. -/
def isTruthyStr : Option String → Bool
  | some s => !s.isEmpty
  | none => false

/-- Content of the send button while a request is in flight (script.js line 176). -/
def generatingLabel : String := "<span class=\"btn-icon\">↻</span> Generating..."

/-- Content of the send button restored in the `finally` block (script.js line 224). -/
def generateLabel : String := "<span class=\"btn-icon\">➤</span> Generate"

/-- Model of `generateGraph` (script.js lines 168-226) as a state transformer,
given the parsed JSON response the `/generate` endpoint returns. A truthy
`error` field throws before the user message is appended; the `catch`
block appends the bullet-prefixed error text as an assistant message; the
`finally` block always clears the loading state and restores the send
button. -/
def generateGraph (resp : GenResponse) (s : UIState) : UIState :=
  let input := jsTrim s.inputValue
  if input = "" then s
  else
    let s1 := { s with
      loading := true
      sendBtnDisabled := true
      sendBtnLabel := generatingLabel }
    let s2 :=
      if isTruthyStr resp.error then
        { s1 with chatMessages :=
            addMessage ("• Error: " ++ resp.error.getD "") "assistant" s1.chatMessages }
      else
        let sa := { s1 with chatMessages := addMessage input "user" s1.chatMessages }
        let sb :=
          match resp.chat_history.getLast? with
          | some lastMessage =>
            if lastMessage.type = "assistant" then
              { sa with chatMessages :=
                  addMessage lastMessage.content "assistant" sa.chatMessages }
            else sa
          | none => sa
        let sc :=
          if isTruthyStr resp.cfg_image then
            setGraphInnerHTML
              ("<img src=\"data:image/png;base64," ++ resp.cfg_image.getD "" ++
                "\" alt=\"Control Flow Graph\">") sb
          else sb
        let sd :=
          match resp.metrics with
          | some m => updateMetrics (some m) sc
          | none => sc
        { sd with inputValue := "", inputFocused := true }
    { s2 with
      loading := false
      sendBtnDisabled := false
      sendBtnLabel := generateLabel }

/-- The success branch of `clearChat` (script.js lines 234-257): wipe the
transcript, wipe the image viewer through the intercepted setter, clear
the input, blank the metrics, append the welcome message, reinitialize. -/
def clearChatSuccess (s : UIState) : UIState :=
  let s1 := { s with chatMessages := [] }
  let s2 := setGraphInnerHTML "" s1
  let s3 := { s2 with inputValue := "" }
  let s4 := updateMetrics none s3
  let s5 := { s4 with chatMessages := addMessage welcomeMessage "assistant" s4.chatMessages }
  initializeUI s5

/-- Model of `clearChat` (script.js lines 229-261), given the `status` field of the
`/clear_session` response: only the exact string `success` mutates
anything. -/
def clearChat (status : String) (s : UIState) : UIState :=
  if status = "success" then clearChatSuccess s else s

/-- A user-initiated zoom trigger: button click, keyboard shortcut, or
mouse wheel. -/
inductive ZoomEvent where
  | clickIn
  | clickOut
  | key (ctrl : Bool) (k : String)
  | wheel (ctrl : Bool) (delta : Int)
deriving DecidableEq, Repr

/-- Dispatch one zoom trigger to its handler. -/
def applyZoomEvent (e : ZoomEvent) (s : UIState) : UIState :=
  match e with
  | .clickIn => clickZoomIn s
  | .clickOut => clickZoomOut s
  | .key c k => keydownEvent c k s
  | .wheel c d => wheelEvent c d s

/-- Run a sequence of zoom triggers left to right. -/
def runZoomEvents (es : List ZoomEvent) (s : UIState) : UIState :=
  es.foldl (fun s e => applyZoomEvent e s) s

/-- The page state right after the DOMContentLoaded handler runs: empty
transcript and graph container, zoom at 1, default labels, metrics blank,
input focused. -/
def initState : UIState where
  chatMessages := []
  graphContent := ""
  currentZoom := 1
  zoomLevelText := "100%"
  zoomInDisabled := false
  zoomOutDisabled := false
  imgScale := 1
  isRepairMode := false
  loading := false
  sendBtnDisabled := false
  sendBtnLabel := generateLabel
  inputValue := ""
  placeholder := repairPlaceholder false
  repairBtnActive := false
  metricsText := ("-", "-", "-")
  inputFocused := true

/-- The formatter exactly as claim C6 words it: each raw (untrimmed) line
is classified by its leading character and reproduced verbatim inside the
element. Spec-side definition, for comparison with `formatLine`. -/
def claimFormatLine (line : String) : String :=
  if jsStartsWith "•" line then
    "<div class=\"bullet-point\">" ++ line ++ "</div>"
  else if jsStartsWith "-" line then
    "<div class=\"sub-bullet\">" ++ line ++ "</div>"
  else
    "<div>" ++ line ++ "</div>"

/-- The message formatter as claim C6 words it: split on line breaks, map
each raw line independently, concatenate in line order. Spec-side
definition, for comparison with `formatMessage`. -/
def claimFormatMessage (content : String) : String :=
  String.join ((jsSplitNewline content).map claimFormatLine)

/-- The amended per-line formatter: the line is first trimmed, and the
trimmed text is both classified and displayed. -/
def claimFormatLineTrimmed (line : String) : String :=
  claimFormatLine (jsTrim line)

/-- The amended message formatter: split on line breaks, trim each line,
classify and display the trimmed text, concatenate in line order. -/
def claimFormatMessageTrimmed (content : String) : String :=
  String.join ((jsSplitNewline content).map claimFormatLineTrimmed)

/-- A state with a rendered graph image: the page state right after an
image-bearing `innerHTML` write. -/
def imgSample : UIState :=
  setGraphInnerHTML "<img>" initState

/-- The auxiliary invariant tying the zoom level to the disabled flags of the two
buttons, as `updateZoom` maintains it while an image is shown. -/
def ZoomInv (s : UIState) : Prop :=
  minZoom ≤ s.currentZoom ∧ s.currentZoom ≤ maxZoom ∧
  s.zoomInDisabled = decide (s.currentZoom ≥ maxZoom) ∧
  s.zoomOutDisabled = decide (s.currentZoom ≤ minZoom)

theorem updateZoom_currentZoom (s : UIState) :
    (updateZoom s).currentZoom = s.currentZoom := by
  simp only [updateZoom]; split <;> rfl

theorem updateZoom_graphContent (s : UIState) :
    (updateZoom s).graphContent = s.graphContent := by
  simp only [updateZoom]; split <;> rfl

theorem hasImage_updateZoom (s : UIState) :
    hasImage (updateZoom s) = hasImage s := by
  simp only [hasImage, updateZoom_graphContent]

theorem updateZoom_of_hasImage (s : UIState) (h : hasImage s = true) :
    updateZoom s =
      { s with
        imgScale := s.currentZoom
        zoomLevelText := toString (round (s.currentZoom * 100)) ++ "%"
        zoomInDisabled := decide (s.currentZoom ≥ maxZoom)
        zoomOutDisabled := decide (s.currentZoom ≤ minZoom) } := by
  simp only [updateZoom, h, if_true]

theorem updateZoom_of_no_image (s : UIState) (h : hasImage s = false) :
    updateZoom s = s := by
  simp only [updateZoom, h]; rfl

/-- C6: the formatter of the code agrees with the formatter of the claim once each
line is trimmed before classification and display. -/
theorem formatLine_eq_claim_trimmed (line : String) :
    formatLine line = claimFormatLineTrimmed line := rfl

/-- C7 helper: `addMessage` appends exactly one entry. -/
theorem addMessage_eq (content type : String) (msgs : List Message) :
    addMessage content type msgs =
      msgs ++ [⟨type, if type = "assistant" then
        Rendered.markup (formatMessage content)
      else
        Rendered.plainText content⟩] := rfl

/-- C6 — amended: the message formatter splits its input on line breaks
and maps each line independently after trimming it: the trimmed line is
classified by its leading `•` / `-` and is the displayed text; the output
is the concatenation of the per-line elements in line order. -/
theorem c6_formatMessage_trimmed_linewise (content : String) :
    formatMessage content = claimFormatMessageTrimmed content := rfl

/-- C6 — counterexample: on the line `"  - a"`, which does not start with
`-`, the code still produces a sub-bullet element (it classifies the
trimmed line), contradicting the untrimmed reading of the claim, under which
such a line yields a plain element. -/
theorem c6_counterexample :
    formatMessage "  - a" = "<div class=\"sub-bullet\">- a</div>" ∧
    claimFormatMessage "  - a" = "<div>  - a</div>" ∧
    formatMessage "  - a" ≠ claimFormatMessage "  - a" := by
  refine ⟨rfl, rfl, ?_⟩; decide

/-- C7: appending a user-role message inserts the content as plain text
(never interpreted as markup), while appending an assistant-role message
inserts the bullet-formatted markup, for every content string and every
prior transcript. -/
theorem c7_addMessage_asymmetry (content : String) (msgs : List Message) :
    addMessage content "user" msgs =
      msgs ++ [⟨"user", Rendered.plainText content⟩] ∧
    addMessage content "assistant" msgs =
      msgs ++ [⟨"assistant", Rendered.markup (formatMessage content)⟩] := by
  constructor <;> rfl

theorem clickZoomIn_of_lt (s : UIState) (h : s.currentZoom < maxZoom) :
    clickZoomIn s =
      updateZoom { s with currentZoom := min (s.currentZoom + zoomStep) maxZoom } := by
  simp only [clickZoomIn, if_pos h]

theorem clickZoomIn_of_ge (s : UIState) (h : ¬ s.currentZoom < maxZoom) :
    clickZoomIn s = s := by
  simp only [clickZoomIn, if_neg h]

theorem clickZoomOut_of_gt (s : UIState) (h : minZoom < s.currentZoom) :
    clickZoomOut s =
      updateZoom { s with currentZoom := max (s.currentZoom - zoomStep) minZoom } := by
  simp only [clickZoomOut, gt_iff_lt, if_pos h]

theorem clickZoomOut_of_le (s : UIState) (h : ¬ minZoom < s.currentZoom) :
    clickZoomOut s = s := by
  simp only [clickZoomOut, gt_iff_lt, if_neg h]

theorem wheelEvent_in_currentZoom (s : UIState) (d : Int)
    (hd : d < 0) (hz : s.currentZoom < maxZoom) :
    (wheelEvent true d s).currentZoom = min (s.currentZoom + zoomStep) maxZoom := by
  simp only [wheelEvent, if_true, if_pos (And.intro hd hz), updateZoom_currentZoom]

theorem wheelEvent_out_currentZoom (s : UIState) (d : Int)
    (hd : 0 < d) (hz : minZoom < s.currentZoom) :
    (wheelEvent true d s).currentZoom = max (s.currentZoom - zoomStep) minZoom := by
  have hnot : ¬ (d < 0 ∧ s.currentZoom < maxZoom) := by
    rintro ⟨h1, -⟩; omega
  simp only [wheelEvent, if_true, if_neg hnot, gt_iff_lt,
    if_pos (And.intro hd hz), updateZoom_currentZoom]

theorem imgSample_currentZoom : imgSample.currentZoom = 1 := rfl

theorem imgSample_hasImage : hasImage imgSample = true := rfl

theorem minZoom_lt_imgSample : minZoom < imgSample.currentZoom := by
  rw [imgSample_currentZoom]; norm_num [minZoom]

/-- C2 — amended: with ctrl/cmd held, a wheel event with negative delta
(wheel-up) increases the zoom by one 0.1 step capped at 3.0, and a wheel
event with positive delta (wheel-down) decreases it by one 0.1 step
floored at 0.5 — the opposite direction of the claim. -/
theorem c2_wheel_direction (s : UIState) (d : Int) :
    (d < 0 → s.currentZoom < maxZoom →
      (wheelEvent true d s).currentZoom = min (s.currentZoom + zoomStep) maxZoom) ∧
    (0 < d → minZoom < s.currentZoom →
      (wheelEvent true d s).currentZoom = max (s.currentZoom - zoomStep) minZoom) :=
  ⟨fun hd hz => wheelEvent_in_currentZoom s d hd hz,
   fun hd hz => wheelEvent_out_currentZoom s d hd hz⟩

/-- C2 — witness: both directions of the amended statement at the freshly
rendered image state with zoom 1. -/
theorem c2_wheel_direction_witness :
    (wheelEvent true (-1) imgSample).currentZoom =
      min (imgSample.currentZoom + zoomStep) maxZoom ∧
    (wheelEvent true 1 imgSample).currentZoom =
      max (imgSample.currentZoom - zoomStep) minZoom :=
  ⟨(c2_wheel_direction imgSample (-1)).1 (by decide) (by decide),
   (c2_wheel_direction imgSample 1).2 (by decide) minZoom_lt_imgSample⟩

/-- C2 — counterexample: over the fresh image state with zoom 1, a
wheel-down event (positive delta) lowers the zoom to 0.9, and a wheel-up
event (negative delta) raises it to 1.1 — so wheel-down does not zoom in
as the claim states. -/
theorem c2_counterexample :
    imgSample.currentZoom = 1 ∧
    (wheelEvent true 1 imgSample).currentZoom = 9 / 10 ∧
    (wheelEvent true (-1) imgSample).currentZoom = 11 / 10 := by
  refine ⟨rfl, ?_, ?_⟩
  · rw [wheelEvent_out_currentZoom imgSample 1 (by decide) minZoom_lt_imgSample,
      imgSample_currentZoom]
    norm_num [zoomStep, minZoom]
  · rw [wheelEvent_in_currentZoom imgSample (-1) (by decide) (by decide),
      imgSample_currentZoom]
    norm_num [zoomStep, maxZoom]

/-- C9: starting from any state whose placeholder text matches its repair
flag, two consecutive clicks of the repair-mode toggle restore the entire
state — in particular the flag, the placeholder text, and the active-state class of the
button. -/
theorem c9_repair_toggle_involution (s : UIState)
    (h : s.placeholder = repairPlaceholder s.isRepairMode) :
    repairToggle (repairToggle s) = s := by
  obtain ⟨a1, a2, a3, a4, a5, a6, a7, m, a9, a10, a11, a12, p, act, a15, a16⟩ := s
  simp only [repairToggle, Bool.not_not] at h ⊢
  simp_all

/-- C9 — witness: the involution at the initial page state. -/
theorem c9_repair_toggle_involution_witness :
    repairToggle (repairToggle initState) = initState :=
  c9_repair_toggle_involution initState rfl

/-- C8: a successful `/clear_session` response leaves the transcript with
exactly the fixed assistant-tagged welcome message, wipes the image
viewer, clears and refocuses the input, blanks the three metrics
displays, and resets the repair-mode flag and its button. -/
theorem c8_clear_success_state (s : UIState) :
    (clearChat "success" s).chatMessages =
      [⟨"assistant", Rendered.markup (formatMessage welcomeMessage)⟩] ∧
    (clearChat "success" s).graphContent = "" ∧
    (clearChat "success" s).inputValue = "" ∧
    (clearChat "success" s).inputFocused = true ∧
    (clearChat "success" s).metricsText = ("-", "-", "-") ∧
    (clearChat "success" s).isRepairMode = false ∧
    (clearChat "success" s).repairBtnActive = false :=
  ⟨rfl, rfl, rfl, rfl, rfl, rfl, rfl⟩

/-- C3 — amended: a successful clear/reset flow resets `isRepairMode` to
false and leaves the loading flag at false when it was false, but it does
*not* reset `currentZoom`: the viewer is wiped through the non-image path
of the intercepted setter, which bypasses the zoom reset, so the zoom
keeps its pre-clear value until the next image is rendered. -/
theorem c3_clear_defaults (s : UIState) (h : s.loading = false) :
    (clearChat "success" s).isRepairMode = false ∧
    (clearChat "success" s).loading = false ∧
    (clearChat "success" s).currentZoom = s.currentZoom :=
  ⟨rfl, h, rfl⟩

/-- C3 — witness: the amended statement at the initial page state. -/
theorem c3_clear_defaults_witness :
    (clearChat "success" initState).isRepairMode = false ∧
    (clearChat "success" initState).loading = false ∧
    (clearChat "success" initState).currentZoom = initState.currentZoom :=
  c3_clear_defaults initState rfl

/-- C3 — counterexample: zoom the freshly rendered image in once (zoom
1.1) and then run a successful clear flow: `currentZoom` is still 1.1, not
the default 1.0 the claim requires. -/
theorem c3_counterexample :
    (clearChat "success" (clickZoomIn imgSample)).currentZoom = 11 / 10 ∧
    (clearChat "success" (clickZoomIn imgSample)).currentZoom ≠ 1 := by
  have h1 : (clearChat "success" (clickZoomIn imgSample)).currentZoom
      = (clickZoomIn imgSample).currentZoom := rfl
  have h2 : (clickZoomIn imgSample).currentZoom
      = min (imgSample.currentZoom + zoomStep) maxZoom := by
    rw [clickZoomIn_of_lt imgSample (by decide), updateZoom_currentZoom]
  rw [h1, h2, imgSample_currentZoom]
  norm_num [zoomStep, maxZoom]

/-- C1 — amended: a `/generate` response with a truthy `error` field makes
the flow throw before the user message is appended, so the transcript
gains exactly one new message — the assistant message reading
`• Error: e` — and the image, zoom, metrics and input field are all left
untouched; the `finally` block clears the loading state and re-enables
the send button. -/
theorem c1_generate_error_flow (s : UIState) (resp : GenResponse)
    (hin : ¬ jsTrim s.inputValue = "") (herr : isTruthyStr resp.error = true) :
    (generateGraph resp s).chatMessages =
      s.chatMessages ++
        [⟨"assistant",
          Rendered.markup (formatMessage ("• Error: " ++ resp.error.getD ""))⟩] ∧
    (generateGraph resp s).graphContent = s.graphContent ∧
    (generateGraph resp s).currentZoom = s.currentZoom ∧
    (generateGraph resp s).metricsText = s.metricsText ∧
    (generateGraph resp s).inputValue = s.inputValue ∧
    (generateGraph resp s).loading = false ∧
    (generateGraph resp s).sendBtnDisabled = false := by
  simp only [generateGraph, if_neg hin, herr, if_true, addMessage, if_pos rfl]
  simp

/-- C1 — witness: the amended statement at input `"x"` and the response
`{error: "bad input"}`. -/
theorem c1_generate_error_flow_witness :
    (generateGraph ⟨some "bad input", [], none, none⟩
        { initState with inputValue := "x" }).chatMessages =
      [⟨"assistant",
        Rendered.markup (formatMessage ("• Error: " ++ (some "bad input").getD ""))⟩] ∧
    (generateGraph ⟨some "bad input", [], none, none⟩
        { initState with inputValue := "x" }).loading = false :=
  ⟨((c1_generate_error_flow { initState with inputValue := "x" }
      ⟨some "bad input", [], none, none⟩ (by decide) rfl).1),
   ((c1_generate_error_flow { initState with inputValue := "x" }
      ⟨some "bad input", [], none, none⟩ (by decide) rfl).2.2.2.2.2.1)⟩

/-- C1 — counterexample: with input `"x"` and response
`{error: "bad input"}` the transcript afterwards holds only the assistant
error message — no user-role message was appended, because the error check
precedes the user-message append, contradicting the statement of the claim that "the echoed
user message has already been appended before the error check runs". -/
theorem c1_counterexample :
    (generateGraph ⟨some "bad input", [], none, none⟩
        { initState with inputValue := "x" }).chatMessages =
      [⟨"assistant", Rendered.markup (formatMessage "• Error: bad input")⟩] ∧
    ∀ m ∈ (generateGraph ⟨some "bad input", [], none, none⟩
        { initState with inputValue := "x" }).chatMessages, m.type ≠ "user" := by
  refine ⟨rfl, ?_⟩
  intro m hm
  rw [show (generateGraph ⟨some "bad input", [], none, none⟩
      { initState with inputValue := "x" }).chatMessages =
      [⟨"assistant", Rendered.markup (formatMessage "• Error: bad input")⟩] from rfl] at hm
  rw [List.mem_singleton] at hm
  subst hm
  decide

/-- C5: writing image-bearing markup to the graph container resets the
zoom to 1 (the display reads 100% and the applied scale is 1) while
installing the new content; writing non-image markup replaces the content
and changes nothing else, bypassing the zoom reset. -/
theorem c5_innerHTML_setter (s : UIState) (content : String) :
    (containsImg content = true →
      (setGraphInnerHTML content s).graphContent = content ∧
      (setGraphInnerHTML content s).currentZoom = 1 ∧
      (setGraphInnerHTML content s).imgScale = 1 ∧
      (setGraphInnerHTML content s).zoomLevelText = "100%") ∧
    (containsImg content = false →
      setGraphInnerHTML content s = { s with graphContent := content }) := by
  constructor
  · intro h
    have himg : hasImage { s with graphContent := content, currentZoom := 1 } = true := h
    rw [setGraphInnerHTML, if_pos h, updateZoom_of_hasImage _ himg]
    refine ⟨rfl, rfl, rfl, ?_⟩
    have hr : round ((1 : ℚ) * 100) = 100 := by norm_num
    show toString (round ((1 : ℚ) * 100)) ++ "%" = "100%"
    rw [hr]
    rfl
  · intro h
    rw [setGraphInnerHTML, if_neg (by simp [h])]

/-- C5 — witness: the image branch at the initial state and the markup
`"<img>"`, and the bypass branch at the empty markup used by the clear
flow. -/
theorem c5_innerHTML_setter_witness :
    ((setGraphInnerHTML "<img>" initState).graphContent = "<img>" ∧
     (setGraphInnerHTML "<img>" initState).currentZoom = 1 ∧
     (setGraphInnerHTML "<img>" initState).imgScale = 1 ∧
     (setGraphInnerHTML "<img>" initState).zoomLevelText = "100%") ∧
    setGraphInnerHTML "" initState = { initState with graphContent := "" } :=
  ⟨(c5_innerHTML_setter initState "<img>").1 rfl,
   (c5_innerHTML_setter initState "").2 rfl⟩

theorem updateZoom_setZoom_no_image (s : UIState) (z : ℚ)
    (h : hasImage s = false) :
    updateZoom { s with currentZoom := z } = { s with currentZoom := z } :=
  updateZoom_of_no_image { s with currentZoom := z } h

theorem clickZoomIn_frame_no_image (s : UIState) (h : hasImage s = false) :
    (clickZoomIn s).zoomLevelText = s.zoomLevelText ∧
    (clickZoomIn s).zoomInDisabled = s.zoomInDisabled ∧
    (clickZoomIn s).zoomOutDisabled = s.zoomOutDisabled := by
  by_cases hz : s.currentZoom < maxZoom
  · rw [clickZoomIn_of_lt s hz, updateZoom_setZoom_no_image s _ h]
    exact ⟨rfl, rfl, rfl⟩
  · rw [clickZoomIn_of_ge s hz]
    exact ⟨rfl, rfl, rfl⟩

theorem clickZoomOut_frame_no_image (s : UIState) (h : hasImage s = false) :
    (clickZoomOut s).zoomLevelText = s.zoomLevelText ∧
    (clickZoomOut s).zoomInDisabled = s.zoomInDisabled ∧
    (clickZoomOut s).zoomOutDisabled = s.zoomOutDisabled := by
  by_cases hz : minZoom < s.currentZoom
  · rw [clickZoomOut_of_gt s hz, updateZoom_setZoom_no_image s _ h]
    exact ⟨rfl, rfl, rfl⟩
  · rw [clickZoomOut_of_le s hz]
    exact ⟨rfl, rfl, rfl⟩

theorem keydownEvent_frame_no_image (s : UIState) (c : Bool) (k : String)
    (h : hasImage s = false) :
    (keydownEvent c k s).zoomLevelText = s.zoomLevelText ∧
    (keydownEvent c k s).zoomInDisabled = s.zoomInDisabled ∧
    (keydownEvent c k s).zoomOutDisabled = s.zoomOutDisabled := by
  cases c
  · exact ⟨rfl, rfl, rfl⟩
  · simp only [keydownEvent, if_true]
    split
    · exact clickZoomIn_frame_no_image s h
    · split
      · exact clickZoomOut_frame_no_image s h
      · exact ⟨rfl, rfl, rfl⟩

theorem wheelEvent_frame_no_image (s : UIState) (c : Bool) (d : Int)
    (h : hasImage s = false) :
    (wheelEvent c d s).zoomLevelText = s.zoomLevelText ∧
    (wheelEvent c d s).zoomInDisabled = s.zoomInDisabled ∧
    (wheelEvent c d s).zoomOutDisabled = s.zoomOutDisabled := by
  cases c
  · exact ⟨rfl, rfl, rfl⟩
  · simp only [wheelEvent, if_true]
    split
    · rw [updateZoom_setZoom_no_image s _ h]
      exact ⟨rfl, rfl, rfl⟩
    · split
      · rw [updateZoom_setZoom_no_image s _ h]
        exact ⟨rfl, rfl, rfl⟩
      · rw [updateZoom_of_no_image s h]
        exact ⟨rfl, rfl, rfl⟩

/-- C10: while the graph content area holds no image element, every zoom
trigger (button clicks, keyboard shortcut, ctrl/cmd wheel) leaves the
zoom-level display text and the disabled flags of both buttons unchanged — yet
the `currentZoom` variable can still change, so the displayed percentage
can disagree with `round(currentZoom * 100)`: one zoom-in click from the
initial (image-less) state puts `currentZoom` at 1.1 while the display
still reads 100%. -/
theorem c10_no_image_frame (s : UIState) (c : Bool) (d : Int) (k : String)
    (h : hasImage s = false) :
    ((clickZoomIn s).zoomLevelText = s.zoomLevelText ∧
     (clickZoomIn s).zoomInDisabled = s.zoomInDisabled ∧
     (clickZoomIn s).zoomOutDisabled = s.zoomOutDisabled) ∧
    ((clickZoomOut s).zoomLevelText = s.zoomLevelText ∧
     (clickZoomOut s).zoomInDisabled = s.zoomInDisabled ∧
     (clickZoomOut s).zoomOutDisabled = s.zoomOutDisabled) ∧
    ((keydownEvent c k s).zoomLevelText = s.zoomLevelText ∧
     (keydownEvent c k s).zoomInDisabled = s.zoomInDisabled ∧
     (keydownEvent c k s).zoomOutDisabled = s.zoomOutDisabled) ∧
    ((wheelEvent c d s).zoomLevelText = s.zoomLevelText ∧
     (wheelEvent c d s).zoomInDisabled = s.zoomInDisabled ∧
     (wheelEvent c d s).zoomOutDisabled = s.zoomOutDisabled) ∧
    ((clickZoomIn initState).currentZoom = 11 / 10 ∧
     (clickZoomIn initState).zoomLevelText = "100%" ∧
     (clickZoomIn initState).zoomLevelText ≠
       toString (round ((clickZoomIn initState).currentZoom * 100)) ++ "%") := by
  refine ⟨clickZoomIn_frame_no_image s h, clickZoomOut_frame_no_image s h,
    keydownEvent_frame_no_image s c k h, wheelEvent_frame_no_image s c d h, ?_, ?_, ?_⟩
  · rw [clickZoomIn_of_lt initState (by decide), updateZoom_currentZoom]
    show min ((1 : ℚ) + zoomStep) maxZoom = 11 / 10
    norm_num [zoomStep, maxZoom]
  · rw [clickZoomIn_of_lt initState (by decide),
      updateZoom_setZoom_no_image initState _ rfl]
    rfl
  · rw [clickZoomIn_of_lt initState (by decide),
      updateZoom_setZoom_no_image initState _ rfl]
    show "100%" ≠ toString (round (min ((1 : ℚ) + zoomStep) maxZoom * 100)) ++ "%"
    have hz : min ((1 : ℚ) + zoomStep) maxZoom = 11 / 10 := by
      norm_num [zoomStep, maxZoom]
    rw [hz]
    have hr : round ((11 : ℚ) / 10 * 100) = 110 := by norm_num
    rw [hr]
    decide

/-- C10 — witness: the frame statement at the initial (image-less) state
with a ctrl-wheel delta of 1 and the `=` key. -/
theorem c10_no_image_frame_witness :
    ((clickZoomIn initState).zoomLevelText = initState.zoomLevelText ∧
     (clickZoomIn initState).zoomInDisabled = initState.zoomInDisabled ∧
     (clickZoomIn initState).zoomOutDisabled = initState.zoomOutDisabled) ∧
    ((clickZoomOut initState).zoomLevelText = initState.zoomLevelText ∧
     (clickZoomOut initState).zoomInDisabled = initState.zoomInDisabled ∧
     (clickZoomOut initState).zoomOutDisabled = initState.zoomOutDisabled) ∧
    ((keydownEvent true "=" initState).zoomLevelText = initState.zoomLevelText ∧
     (keydownEvent true "=" initState).zoomInDisabled = initState.zoomInDisabled ∧
     (keydownEvent true "=" initState).zoomOutDisabled = initState.zoomOutDisabled) ∧
    ((wheelEvent true 1 initState).zoomLevelText = initState.zoomLevelText ∧
     (wheelEvent true 1 initState).zoomInDisabled = initState.zoomInDisabled ∧
     (wheelEvent true 1 initState).zoomOutDisabled = initState.zoomOutDisabled) ∧
    ((clickZoomIn initState).currentZoom = 11 / 10 ∧
     (clickZoomIn initState).zoomLevelText = "100%" ∧
     (clickZoomIn initState).zoomLevelText ≠
       toString (round ((clickZoomIn initState).currentZoom * 100)) ++ "%") :=
  c10_no_image_frame initState true 1 "=" rfl

theorem zoomStep_pos : (0 : ℚ) < zoomStep := by norm_num [zoomStep]

theorem minZoom_le_maxZoom : minZoom ≤ maxZoom := by norm_num [minZoom, maxZoom]

theorem zoomInv_updateZoom_of_hasImage (s : UIState) (himg : hasImage s = true)
    (h1 : minZoom ≤ s.currentZoom) (h2 : s.currentZoom ≤ maxZoom) :
    ZoomInv (updateZoom s) := by
  rw [updateZoom_of_hasImage s himg]
  exact ⟨h1, h2, rfl, rfl⟩

theorem zoomInv_clickZoomIn (s : UIState) (h : ZoomInv s)
    (himg : hasImage s = true) : ZoomInv (clickZoomIn s) := by
  by_cases hz : s.currentZoom < maxZoom
  · rw [clickZoomIn_of_lt s hz]
    refine zoomInv_updateZoom_of_hasImage
      { s with currentZoom := min (s.currentZoom + zoomStep) maxZoom } himg ?_ ?_
    · exact le_min (le_trans h.1 (le_add_of_nonneg_right zoomStep_pos.le))
        minZoom_le_maxZoom
    · exact min_le_right _ _
  · rw [clickZoomIn_of_ge s hz]
    exact h

theorem zoomInv_clickZoomOut (s : UIState) (h : ZoomInv s)
    (himg : hasImage s = true) : ZoomInv (clickZoomOut s) := by
  by_cases hz : minZoom < s.currentZoom
  · rw [clickZoomOut_of_gt s hz]
    refine zoomInv_updateZoom_of_hasImage
      { s with currentZoom := max (s.currentZoom - zoomStep) minZoom } himg ?_ ?_
    · exact le_max_right _ _
    · exact max_le (le_trans (sub_le_self _ zoomStep_pos.le) h.2.1) minZoom_le_maxZoom
  · rw [clickZoomOut_of_le s hz]
    exact h

theorem zoomInv_keydownEvent (c : Bool) (k : String) (s : UIState)
    (h : ZoomInv s) (himg : hasImage s = true) :
    ZoomInv (keydownEvent c k s) := by
  cases c
  · exact h
  · simp only [keydownEvent, if_true]
    split
    · exact zoomInv_clickZoomIn s h himg
    · split
      · exact zoomInv_clickZoomOut s h himg
      · exact h

theorem zoomInv_wheelEvent (c : Bool) (d : Int) (s : UIState)
    (h : ZoomInv s) (himg : hasImage s = true) :
    ZoomInv (wheelEvent c d s) := by
  cases c
  · exact h
  · simp only [wheelEvent, if_true]
    split
    · refine zoomInv_updateZoom_of_hasImage
        { s with currentZoom := min (s.currentZoom + zoomStep) maxZoom } himg ?_ ?_
      · exact le_min (le_trans h.1 (le_add_of_nonneg_right zoomStep_pos.le))
          minZoom_le_maxZoom
      · exact min_le_right _ _
    · split
      · refine zoomInv_updateZoom_of_hasImage
          { s with currentZoom := max (s.currentZoom - zoomStep) minZoom } himg ?_ ?_
        · exact le_max_right _ _
        · exact max_le (le_trans (sub_le_self _ zoomStep_pos.le) h.2.1)
            minZoom_le_maxZoom
      · exact zoomInv_updateZoom_of_hasImage s himg h.1 h.2.1

theorem clickZoomIn_graphContent (s : UIState) :
    (clickZoomIn s).graphContent = s.graphContent := by
  by_cases hz : s.currentZoom < maxZoom
  · rw [clickZoomIn_of_lt s hz, updateZoom_graphContent]
  · rw [clickZoomIn_of_ge s hz]

theorem clickZoomOut_graphContent (s : UIState) :
    (clickZoomOut s).graphContent = s.graphContent := by
  by_cases hz : minZoom < s.currentZoom
  · rw [clickZoomOut_of_gt s hz, updateZoom_graphContent]
  · rw [clickZoomOut_of_le s hz]

theorem keydownEvent_graphContent (c : Bool) (k : String) (s : UIState) :
    (keydownEvent c k s).graphContent = s.graphContent := by
  cases c
  · rfl
  · simp only [keydownEvent, if_true]
    split
    · exact clickZoomIn_graphContent s
    · split
      · exact clickZoomOut_graphContent s
      · rfl

theorem wheelEvent_graphContent (c : Bool) (d : Int) (s : UIState) :
    (wheelEvent c d s).graphContent = s.graphContent := by
  cases c
  · rfl
  · simp only [wheelEvent, if_true]
    split
    · rw [updateZoom_graphContent]
    · split
      · rw [updateZoom_graphContent]
      · rw [updateZoom_graphContent]

theorem applyZoomEvent_graphContent (e : ZoomEvent) (s : UIState) :
    (applyZoomEvent e s).graphContent = s.graphContent := by
  cases e with
  | clickIn => exact clickZoomIn_graphContent s
  | clickOut => exact clickZoomOut_graphContent s
  | key c k => exact keydownEvent_graphContent c k s
  | wheel c d => exact wheelEvent_graphContent c d s

theorem hasImage_applyZoomEvent (e : ZoomEvent) (s : UIState) :
    hasImage (applyZoomEvent e s) = hasImage s := by
  simp only [hasImage, applyZoomEvent_graphContent]

theorem zoomInv_applyZoomEvent (e : ZoomEvent) (s : UIState)
    (h : ZoomInv s) (himg : hasImage s = true) :
    ZoomInv (applyZoomEvent e s) := by
  cases e with
  | clickIn => exact zoomInv_clickZoomIn s h himg
  | clickOut => exact zoomInv_clickZoomOut s h himg
  | key c k => exact zoomInv_keydownEvent c k s h himg
  | wheel c d => exact zoomInv_wheelEvent c d s h himg

theorem runZoomEvents_cons (e : ZoomEvent) (es : List ZoomEvent) (s : UIState) :
    runZoomEvents (e :: es) s = runZoomEvents es (applyZoomEvent e s) := rfl

theorem zoomInv_runZoomEvents (es : List ZoomEvent) (s : UIState)
    (h : ZoomInv s) (himg : hasImage s = true) :
    ZoomInv (runZoomEvents es s) ∧ hasImage (runZoomEvents es s) = true := by
  induction es generalizing s with
  | nil => exact ⟨h, himg⟩
  | cons e es ih =>
    rw [runZoomEvents_cons]
    exact ih (applyZoomEvent e s) (zoomInv_applyZoomEvent e s h himg)
      (by rw [hasImage_applyZoomEvent]; exact himg)

/-- C4: over any sequence of zoom triggers (button clicks, keyboard
shortcuts, wheel events) started while an image is shown at zoom 1.0 with
both buttons enabled, the zoom level always stays in [0.5, 3.0], and the
zoom-in button is disabled exactly at the 3.0 bound while the zoom-out
button is disabled exactly at the 0.5 bound. -/
theorem c4_zoom_bounds_buttons (es : List ZoomEvent) (s : UIState)
    (himg : hasImage s = true) (hz : s.currentZoom = 1)
    (hin : s.zoomInDisabled = false) (hout : s.zoomOutDisabled = false) :
    minZoom ≤ (runZoomEvents es s).currentZoom ∧
    (runZoomEvents es s).currentZoom ≤ maxZoom ∧
    ((runZoomEvents es s).zoomInDisabled = true ↔
      (runZoomEvents es s).currentZoom = maxZoom) ∧
    ((runZoomEvents es s).zoomOutDisabled = true ↔
      (runZoomEvents es s).currentZoom = minZoom) := by
  have h0 : ZoomInv s := by
    refine ⟨?_, ?_, ?_, ?_⟩
    · rw [hz]; norm_num [minZoom]
    · rw [hz]; norm_num [maxZoom]
    · rw [hin, hz]; norm_num [maxZoom]
    · rw [hout, hz]; norm_num [minZoom]
  obtain ⟨⟨h1, h2, h3, h4⟩, -⟩ := zoomInv_runZoomEvents es s h0 himg
  refine ⟨h1, h2, ?_, ?_⟩
  · rw [h3]
    constructor
    · intro hd
      exact le_antisymm h2 (of_decide_eq_true hd)
    · intro hd
      rw [hd]
      simp
  · rw [h4]
    constructor
    · intro hd
      exact le_antisymm (of_decide_eq_true hd) h1
    · intro hd
      rw [hd]
      simp

theorem imgSample_zoomInDisabled : imgSample.zoomInDisabled = false := by
  show decide ((1 : ℚ) ≥ maxZoom) = false
  norm_num [maxZoom]

theorem imgSample_zoomOutDisabled : imgSample.zoomOutDisabled = false := by
  show decide ((1 : ℚ) ≤ minZoom) = false
  norm_num [minZoom]

/-- C4 — witness: one zoom-in click on the freshly rendered image. -/
theorem c4_zoom_bounds_buttons_witness :
    minZoom ≤ (runZoomEvents [ZoomEvent.clickIn] imgSample).currentZoom ∧
    (runZoomEvents [ZoomEvent.clickIn] imgSample).currentZoom ≤ maxZoom ∧
    ((runZoomEvents [ZoomEvent.clickIn] imgSample).zoomInDisabled = true ↔
      (runZoomEvents [ZoomEvent.clickIn] imgSample).currentZoom = maxZoom) ∧
    ((runZoomEvents [ZoomEvent.clickIn] imgSample).zoomOutDisabled = true ↔
      (runZoomEvents [ZoomEvent.clickIn] imgSample).currentZoom = minZoom) :=
  c4_zoom_bounds_buttons [ZoomEvent.clickIn] imgSample imgSample_hasImage
    imgSample_currentZoom imgSample_zoomInDisabled imgSample_zoomOutDisabled

end CFG
